import Mathlib

/-!
# DealHound price tracker — shallow embedding and verification

A shallow embedding of `dealhound.py` (class `PriceTracker`).  Python
dictionaries with a fixed set of recognized keys become structures of
`Option`-valued fields (`none` = key absent); Python floats that only ever
hold finite decimal values (parsed prices, JSON numbers) are modelled as
rationals `ℚ`; the one use of `float('inf')` (the fallback of
`config.get("price_threshold", float('inf'))`) is modelled as `none` with
the comparison `price < inf` — always true for a (finite) parsed price —
made explicit in the embedding.  Side effects (CSV rows, screenshots,
e-mail delivery) are returned as data.
-/

namespace DealHound

/-- The `email_alerts` sub-document of `config.json`.  Only the keys the
code reads (`enabled`, `sender_email`, `recipient_email`, `smtp_server`,
`smtp_port`) are modelled; each is optional as in a JSON document. -/
structure EmailConfig where
  enabled : Option Bool
  sender_email : Option String
  recipient_email : Option String
  smtp_server : Option String
  smtp_port : Option Nat
  deriving Repr, DecidableEq

/-- A configuration document (the parsed content of `config.json`).
`none` in a field means the key is absent from the document, so the
corresponding `dict.get(key, default)` call in the code falls back to its
per-call default. -/
structure Config where
  price_threshold : Option ℚ
  email_alerts : Option EmailConfig
  screenshot_on_error : Option Bool
  explicit_wait_timeout : Option Nat
  implicit_wait_timeout : Option Nat
  deriving Repr, DecidableEq

/-- The literal default dictionary returned by `PriceTracker._load_config`
when opening the config file raises `FileNotFoundError` (lines 44–49):
`{"price_threshold": 50.0, "email_alerts": {"enabled": False},
"screenshot_on_error": True, "explicit_wait_timeout": 20}`.
Note it carries no `implicit_wait_timeout` key. -/
def defaultConfig : Config :=
  { price_threshold := some 50
    email_alerts := some
      { enabled := some false
        sender_email := none
        recipient_email := none
        smtp_server := none
        smtp_port := none }
    screenshot_on_error := some true
    explicit_wait_timeout := some 20
    implicit_wait_timeout := none }

/-- Function `PriceTracker._load_config`: the document when the file exists and
parses, else `defaultConfig` (missing file is non-fatal). -/
def loadConfig : Option Config → Config
  | some doc => doc
  | none => defaultConfig

/-- The product dictionary built by `_extract_amazon_product` (lines
169–174): name, optional price, availability string, url. -/
structure ProductData where
  product_name : String
  price : Option ℚ
  availability : String
  url : String
  deriving Repr, DecidableEq

/-- Python truthiness of an optional float: `None` and `0.0` are falsy. -/
def pyTruthyFloat : Option ℚ → Bool
  | none => false
  | some v => decide (v ≠ 0)

/-- Function `PriceTracker._check_price_threshold` (lines 215–229), as the decision
whether the `🚨 ALERT` is emitted.  The code reads
`threshold = self.config.get("price_threshold", float('inf'))` and alerts
when `price < threshold`; an absent key therefore compares every (finite)
parsed price against `+∞`, which always alerts — the `none` branch below. -/
def checkPriceThreshold (cfg : Config) (d : ProductData) : Bool :=
  match d.price with
  | none => false
  | some p =>
    match cfg.price_threshold with
    | none => true
    | some t => decide (p < t)

/-! ## Price normalization (`_extract_amazon_product`, lines 130–141)

The code cleans a raw price text with
`price_text.replace('$', '').replace(',', '').strip()`, then takes the
first (leftmost) match of the regular expression `(\d+\.?\d*)`, parses it
with `float`, and accepts the value only if `0 < value < 1000000`.
Characters are the ASCII decimal digits (Python `\d` also admits other
Unicode digits; price texts on the modelled site are ASCII). -/

/-- Python `str.strip()`: remove whitespace from both ends. -/
def pyStrip (s : List Char) : List Char :=
  ((s.dropWhile Char.isWhitespace).reverse.dropWhile Char.isWhitespace).reverse

/-- Python `price_text.replace('$', '').replace(',', '')`: delete every dollar
sign and comma. -/
def removeCurrencyChars (s : List Char) : List Char :=
  s.filter (fun c => !(c = '$' || c = ','))

/-- The `\.?\d*` tail of the regex, applied to what remains after the
integer digit run: an optional dot followed by a (possibly empty) digit
run.  Greedy and never failing, so no backtracking occurs. -/
def fracPart (l : List Char) : List Char :=
  match l with
  | d :: cs => if d = '.' then cs.takeWhile Char.isDigit else []
  | [] => []

/-- Python `re.search(r'(\d+\.?\d*)', text)`: leftmost match, returned as the
pair (integer digits, fraction digits).  The match text is
`ds ++ (optional dot) ++ fs`; its `float` value only depends on the two
digit runs. -/
def firstNumMatch : List Char → Option (List Char × List Char)
  | [] => none
  | c :: cs =>
    if c.isDigit then
      some ((c :: cs).takeWhile Char.isDigit, fracPart ((c :: cs).dropWhile Char.isDigit))
    else firstNumMatch cs

/-- Value of a digit run read in base 10. -/
def natOfDigits (ds : List Char) : ℕ :=
  ds.foldl (fun n c => 10 * n + (c.toNat - Char.toNat '0')) 0

/-- Python `float(match.group(1))` for a match split into integer and fraction
digit runs (a trailing dot with no fraction digits contributes nothing,
exactly as `float("3.") == 3.0`). -/
def ratOfMatch (ds fs : List Char) : ℚ :=
  (natOfDigits ds : ℚ) + (natOfDigits fs : ℚ) / 10 ^ fs.length

/-- Lines 130–141 of `_extract_amazon_product`, as a total function from
one raw price text to an optional price: clean, check non-empty (line
131 `if price_text:`), search the regex, parse, and gate on
`price_value > 0 and price_value < 1000000`.  Every failure mode yields
`none`; nothing raises. -/
def normalizePrice (s : List Char) : Option ℚ :=
  let cleaned := pyStrip (removeCurrencyChars s)
  if cleaned.isEmpty then none
  else
    match firstNumMatch cleaned with
    | none => none
    | some (ds, fs) =>
      let v := ratOfMatch ds fs
      if 0 < v ∧ v < 1000000 then some v else none

/-- The spec's numeric-substring pattern `<digits>(.<digits>)?`: the
fraction group requires at least one digit after the dot, so a dot with
no following digit is not part of the match. -/
def fracPartSpec (l : List Char) : List Char :=
  match l with
  | d :: cs =>
    if d = '.' then
      let fs := cs.takeWhile Char.isDigit
      if fs.isEmpty then [] else fs
    else []
  | [] => []

/-- First substring matching the spec's pattern `<digits>(.<digits>)?`,
as the pair (integer digits, fraction digits). -/
def firstNumMatchSpec : List Char → Option (List Char × List Char)
  | [] => none
  | c :: cs =>
    if c.isDigit then
      some ((c :: cs).takeWhile Char.isDigit, fracPartSpec ((c :: cs).dropWhile Char.isDigit))
    else firstNumMatchSpec cs

/-- The spec's wording of price normalization: strip currency symbols and
thousands separators, locate the first substring matching
`<digits>(.<digits>)?`, parse as a decimal, accept only when
`0 < value < 1_000_000`, otherwise absent. -/
def normalizePriceSpec (s : List Char) : Option ℚ :=
  match firstNumMatchSpec (pyStrip (removeCurrencyChars s)) with
  | none => none
  | some (ds, fs) =>
    let v := ratOfMatch ds fs
    if 0 < v ∧ v < 1000000 then some v else none

/-! ## Field extraction (`_extract_amazon_product`, lines 76–180)

The document handle is modelled by the responses the page gives to each
selector query, in the order the code issues them: for the name cascade,
entry `i` is the outcome of `wait.until(...)` on the `i`-th name selector
(`none` = `TimeoutException`); for the price cascade, entry `i` is the
`.text` of the first element `find_elements` returns for the `i`-th price
selector (`none` = empty result list or `NoSuchElementException`);
likewise for availability (`none` = `NoSuchElementException`).  A flag
models an unexpected exception raised while querying, which lands in the
`except Exception` handler at lines 176–180. -/

/-- Python `str.lower()` (ASCII; every needle the code compares against
is ASCII). -/
def pyLower (s : List Char) : List Char := s.map Char.toLower

/-- Python substring membership `needle in hay`. -/
def containsSub (needle hay : List Char) : Bool := decide (needle <:+: hay)

/-- The four name selectors of lines 85–90, in source order. -/
def nameSelectors : List String :=
  ["span#productTitle", "h1.a-size-large", "#title span", "h1 span"]

/-- The seven price selectors of lines 106–114, in source order. -/
def priceSelectors : List String :=
  ["span.a-price-whole", "span.a-offscreen", "#priceblock_ourprice",
   "#priceblock_dealprice", ".a-price .a-offscreen",
   "span[data-a-color='price'] span.a-offscreen", ".a-price span"]

/-- The four availability selectors of lines 145–150, in source order. -/
def availabilitySelectors : List String :=
  ["#availability span", "#availability", "#stockAvailability", "div#availability"]

/-- A rendered document, as the responses it gives to the code's selector
queries (see the section comment). -/
structure Doc where
  nameResults : List (Option String)
  priceResults : List (Option String)
  priceFraction : Option String
  availResults : List (Option String)
  raisesUnexpected : Bool
  deriving Repr, DecidableEq

/-- The name cascade (lines 92–100): the first selector that resolves
wins and the loop breaks unconditionally, even when the resolved text
strips to the empty string; a timeout advances to the next selector. -/
def extractName : List (Option String) → Option String
  | [] => none
  | none :: rest => extractName rest
  | some t :: _ => some (String.mk (pyStrip t.data))

/-- Lines 120–126: the strategy's raw text is stripped and, when the
`span.a-price-fraction` element exists, extended with a dot and the
stripped fraction text (`price_text = f"{price_text}.{fraction_text}"`). -/
def priceCandidateText (raw : String) (frac : Option String) : List Char :=
  let t := pyStrip raw.data
  match frac with
  | some f => t ++ ('.' :: pyStrip f.data)
  | none => t

/-- The price cascade (lines 116–143): first strategy whose candidate
text normalizes to an accepted value wins (`break` at line 139); every
other outcome — no elements, no regex match, value out of range — falls
through to the next strategy. -/
def extractPrice (frac : Option String) : List (Option String) → Option ℚ
  | [] => none
  | none :: rest => extractPrice frac rest
  | some raw :: rest =>
    match normalizePrice (priceCandidateText raw frac) with
    | some v => some v
    | none => extractPrice frac rest

/-- Lines 155–162: classify one availability text.  The `In Stock` test
runs first, so any text containing `"unavailable"` — which always
contains `"available"` — is classified `In Stock` and the
`elif ... 'unavailable' in ...` disjunct is unreachable.  `none` means
neither branch matched, so the loop advances to the next selector. -/
def classifyAvailText (t : String) : Option String :=
  let low := pyLower (pyStrip t.data)
  if containsSub "in stock".data low || containsSub "available".data low then
    some "In Stock"
  else if containsSub "out of stock".data low || containsSub "unavailable".data low then
    some "Out of Stock"
  else none

/-- The availability cascade (lines 152–164): a missing element or an
unclassified text advances to the next selector; no match leaves
`"Unknown"`. -/
def extractAvailability : List (Option String) → String
  | [] => "Unknown"
  | none :: rest => extractAvailability rest
  | some t :: rest =>
    match classifyAvailText t with
    | some a => a
    | none => extractAvailability rest

/-- Outcome of `_extract_amazon_product`: the returned product dict, or
`None` from the missing-name early return (lines 102–104), or `None`
from the `except Exception` handler (lines 176–180). -/
inductive ExtractResult where
  | success (d : ProductData)
  | missingName
  | unexpectedError
  deriving Repr, DecidableEq

/-- Function `PriceTracker._extract_amazon_product`, returning the outcome paired
with whether `_take_screenshot` was invoked.  Only the
`except Exception` handler calls it (gated on
`config.get("screenshot_on_error", True)`); the missing-name early
return at line 104 is a plain `return None` inside the `try` and takes
no screenshot.  Line 166 `if availability == "Unknown" and price:` uses
Python float truthiness on `price`. -/
def extractAmazonProduct (cfg : Config) (doc : Doc) (url : String) :
    ExtractResult × Bool :=
  if doc.raisesUnexpected then
    (.unexpectedError, cfg.screenshot_on_error.getD true)
  else
    match extractName doc.nameResults with
    | none => (.missingName, false)
    | some name =>
      if name = "" then (.missingName, false)
      else
        let price := extractPrice doc.priceFraction doc.priceResults
        let avail0 := extractAvailability doc.availResults
        let avail := if avail0 = "Unknown" && pyTruthyFloat price then "In Stock" else avail0
        (.success { product_name := name, price := price, availability := avail, url := url },
          false)

/-! ## The observation log (`_initialize_csv`, `_save_result`) -/

/-- One CSV row. -/
abbrev CsvRow := List String

/-- The CSV file as its list of rows. -/
abbrev CsvFile := List CsvRow

/-- The header written by `_initialize_csv` (line 55). -/
def csvHeader : CsvRow := ["timestamp", "product_name", "price", "availability", "url"]

/-- Function `_initialize_csv` (lines 51–55): write the header only when the file
does not yet exist (`none`); an existing file is left untouched. -/
def initializeCsv : Option CsvFile → CsvFile
  | none => [csvHeader]
  | some f => f

/-- The character of a single decimal digit. -/
def digitChar (d : ℕ) : Char := Char.ofNat (48 + d)

/-- Decimal digit string of a natural number, most significant first. -/
def natChars (n : ℕ) : List Char :=
  if _h : n < 10 then [digitChar n]
  else natChars (n / 10) ++ [digitChar (n % 10)]
  termination_by n
  decreasing_by exact Nat.div_lt_self (by omega) (by norm_num)

/-- Python `f"{float(price_value):.2f}"` for the nonnegative prices this
program prints: round the price to a whole number of cents and print
`<integer digits>.<two cent digits>`.  (The Python runtime rounds the
nearest binary double; the embedding rounds the exact rational — either
way the output has exactly two digits after the point, which is what the
spec claims.) -/
def fmt2 (v : ℚ) : String :=
  let c := (round (v * 100)).toNat
  String.mk (natChars (c / 100)) ++ "." ++ String.mk [digitChar (c / 10 % 10), digitChar (c % 10)]

/-- Lines 199–203: `'N/A'` for a missing price, else the two-decimal
format. -/
def priceField : Option ℚ → String
  | none => "N/A"
  | some v => fmt2 v

/-- The row written by `_save_result` (lines 205–213); the `.get(...,
'N/A')` fallbacks never fire because the extraction dict always carries
all four keys. -/
def rowOf (ts : String) (d : ProductData) : CsvRow :=
  [ts, d.product_name, priceField d.price, d.availability, d.url]

/-- Function `_save_result` (lines 193–213): append one row.  The early return at
line 194 (`if not product_data`) cannot fire for an extraction result,
which is a non-empty dict. -/
def saveResult (file : CsvFile) (ts : String) (d : ProductData) : CsvFile :=
  file ++ [rowOf ts d]

/-! ## Alert e-mail (`_send_email_alert`, lines 231–274) -/

/-- The process environment variables the code reads (`none` = unset). -/
structure Env where
  EMAIL_SENDER : Option String
  EMAIL_PASSWORD : Option String
  EMAIL_RECIPIENT : Option String
  deriving Repr, DecidableEq

/-- Python `a or b` for `a = os.getenv(...)`: `None` and the empty
string are falsy, so both fall through to `b`. -/
def pyOrStr (a : Option String) (b : String) : String :=
  match a with
  | some s => if s = "" then b else s
  | none => b

/-- The empty dict `{}` that `config.get("email_alerts", {})` falls back
to. -/
def emptyEmailConfig : EmailConfig :=
  { enabled := none, sender_email := none, recipient_email := none,
    smtp_server := none, smtp_port := none }

/-- Outcome of `_send_email_alert`: the credentials-missing early return
(lines 238–240, which prints and sends nothing), or an SMTP delivery
attempt with the values actually used (lines 242–269; whether the
attempt then succeeds or lands in the `except` at line 273 is external). -/
inductive DispatchResult where
  | skippedMissingCreds
  | attempted (sender recipient server : String) (port : ℕ) (password : String)
  deriving Repr, DecidableEq

/-- Function `_send_email_alert` (lines 231–244): sender and recipient fall back
from the environment to the config document (`os.getenv(...) or
email_config.get(..., "")`), but the password is
`os.getenv("EMAIL_PASSWORD", "")` — the environment only, with no config
fallback.  `if not all([sender_email, password, recipient_email])`
skips when any of the three is empty. -/
def sendEmailAlert (env : Env) (cfg : Config) : DispatchResult :=
  let email_config := cfg.email_alerts.getD emptyEmailConfig
  let sender_email := pyOrStr env.EMAIL_SENDER (email_config.sender_email.getD "")
  let password := env.EMAIL_PASSWORD.getD ""
  let recipient_email := pyOrStr env.EMAIL_RECIPIENT (email_config.recipient_email.getD "")
  if sender_email = "" || password = "" || recipient_email = "" then
    .skippedMissingCreds
  else
    .attempted sender_email recipient_email (email_config.smtp_server.getD "smtp.gmail.com")
      (email_config.smtp_port.getD 587) password

/-! ## The tracking session (`track_products`, lines 276–334) -/

/-- Line 304: `if "amazon" in url.lower():` — a substring membership
test on the lowercased URL, not a domain check. -/
def isSupported (url : String) : Bool := containsSub "amazon".data (pyLower url.data)

/-- One URL visit: the URL, the timestamp at which a row would be
written, the document the page presents, and whether `driver.get` (or
anything else before the supported-site check) raises. -/
structure UrlVisit where
  url : String
  ts : String
  doc : Doc
  getRaises : Bool
  deriving Repr, DecidableEq

/-- What one iteration of the URL loop did: whether
`_extract_amazon_product` was invoked, the row handed to `_save_result`
(if any), whether `_take_screenshot` ran, and whether the threshold
alert fired. -/
structure VisitResult where
  extracted : Bool
  logRow : Option CsvRow
  screenshot : Bool
  alerted : Bool
  deriving Repr, DecidableEq

/-- The body of the `for idx, url in enumerate(urls, 1)` loop (lines
295–324).  `driver.get` raising lands in the `except` at line 321
(screenshot when enabled); an unsupported URL hits the `continue` at
line 309 with no extraction, no row and no screenshot; on a supported
URL the extraction outcome decides saving and alerting. -/
def processUrl (cfg : Config) (v : UrlVisit) : VisitResult :=
  if v.getRaises then
    { extracted := false, logRow := none,
      screenshot := cfg.screenshot_on_error.getD true, alerted := false }
  else if isSupported v.url then
    match extractAmazonProduct cfg v.doc v.url with
    | (.success d, shot) =>
      { extracted := true, logRow := some (rowOf v.ts d), screenshot := shot,
        alerted := checkPriceThreshold cfg d }
    | (_, shot) =>
      { extracted := true, logRow := none, screenshot := shot, alerted := false }
  else
    { extracted := false, logRow := none, screenshot := false, alerted := false }

/-- The URL loop itself: process the visits one at a time in order,
appending each produced row to the log as it goes; no per-URL outcome
stops the iteration (every exception is caught inside the loop body). -/
def runLoop (cfg : Config) : List UrlVisit → CsvFile → List VisitResult × CsvFile
  | [], log => ([], log)
  | v :: rest, log =>
    let r := processUrl cfg v
    let log2 :=
      match r.logRow with
      | some row => log ++ [row]
      | none => log
    let (rs, logF) := runLoop cfg rest log2
    (r :: rs, logF)

/-- A run's inputs: whether the products file exists, the parsed visit
list (blank and `#` lines already dropped, per line 282), and whether
`_setup_driver` raises. -/
structure RunInput where
  productsFileExists : Bool
  visits : List UrlVisit
  driverSetupFails : Bool
  deriving Repr, DecidableEq

/-- A run's observable outcome: the process exit code, the per-visit
results in order, and the final log. -/
structure RunResult where
  exitCode : ℕ
  visitResults : List VisitResult
  log : CsvFile
  deriving Repr, DecidableEq

/-- Function `track_products` (lines 276–334).  A missing products file prints
`Error: Products file ... not found.` and `return`s — a normal return,
so `main` falls off the end and the process exits 0.  An empty URL list
likewise returns normally.  A `_setup_driver` failure is caught at line
329 and calls `sys.exit(1)`.  Otherwise the loop runs to completion and
the run exits 0 (per-URL failures are swallowed inside the loop). -/
def trackProducts (cfg : Config) (inp : RunInput) (log0 : CsvFile) : RunResult :=
  if !inp.productsFileExists then
    { exitCode := 0, visitResults := [], log := log0 }
  else if inp.visits.isEmpty then
    { exitCode := 0, visitResults := [], log := log0 }
  else if inp.driverSetupFails then
    { exitCode := 1, visitResults := [], log := log0 }
  else
    let (rs, logF) := runLoop cfg inp.visits log0
    { exitCode := 0, visitResults := rs, log := logF }

/-! ## Helper lemmas -/

theorem fracPart_eq_fracPartSpec (l : List Char) : fracPart l = fracPartSpec l := by
  cases l with
  | nil => rfl
  | cons d cs =>
    by_cases hd : d = '.'
    · by_cases he : (cs.takeWhile Char.isDigit).isEmpty
      · simp [fracPart, fracPartSpec, hd, he, List.isEmpty_iff.mp he]
      · simp [fracPart, fracPartSpec, hd, he]
    · simp [fracPart, fracPartSpec, hd]

theorem firstNumMatch_eq_spec (l : List Char) : firstNumMatch l = firstNumMatchSpec l := by
  induction l with
  | nil => rfl
  | cons c cs ih =>
    by_cases hc : c.isDigit
    · simp [firstNumMatch, firstNumMatchSpec, hc, fracPart_eq_fracPartSpec]
    · simpa [firstNumMatch, firstNumMatchSpec, hc] using ih

example : normalizePrice "$1,234.56".data = some (1234.56 : ℚ) := by
  simp +decide [normalizePrice, pyStrip, removeCurrencyChars, firstNumMatch, fracPart,
    natOfDigits, ratOfMatch]
  norm_num

example : normalizePrice "$0".data = none := by
  simp +decide [normalizePrice, pyStrip, removeCurrencyChars, firstNumMatch, fracPart,
    natOfDigits, ratOfMatch]

example : normalizePrice "N/A".data = none := by
  simp +decide [normalizePrice, pyStrip, removeCurrencyChars, firstNumMatch, fracPart,
    natOfDigits, ratOfMatch]

theorem digitChar_isDigit (d : ℕ) (h : d < 10) : (digitChar d).isDigit := by
  interval_cases d <;> decide

theorem natChars_ne_nil (n : ℕ) : natChars n ≠ [] := by
  unfold natChars
  split
  · simp
  · simp

theorem natChars_digits (n : ℕ) : ∀ c ∈ natChars n, c.isDigit := by
  induction n using Nat.strong_induction_on with
  | _ n ih =>
    unfold natChars
    split
    · intro c hc
      simp only [List.mem_singleton] at hc
      subst hc
      exact digitChar_isDigit n (by omega)
    · intro c hc
      rcases List.mem_append.mp hc with h | h
      · exact ih (n / 10) (Nat.div_lt_self (by omega) (by norm_num)) c h
      · simp only [List.mem_singleton] at h
        subst h
        exact digitChar_isDigit _ (Nat.mod_lt _ (by norm_num))

theorem foldl_saveResult (entries : List (String × ProductData)) (f : CsvFile) :
    entries.foldl (fun acc e => saveResult acc e.1 e.2) f
      = f ++ entries.map (fun e => rowOf e.1 e.2) := by
  induction entries generalizing f with
  | nil => simp
  | cons e rest ih =>
    rw [List.foldl_cons, ih]
    simp [saveResult]

/-! ## The claims -/

/-- Claim C1: with a configured price threshold, `_check_price_threshold`
decides an alert exactly when the record's price is present and strictly
below the threshold; a price equal to the threshold and an absent price
both decide no alert. -/
theorem c1_threshold_alert_iff (cfg : Config) (d : ProductData) (t : ℚ)
    (h : cfg.price_threshold = some t) :
    checkPriceThreshold cfg d = true ↔ ∃ p, d.price = some p ∧ p < t := by
  cases hp : d.price with
  | none => simp [checkPriceThreshold, hp]
  | some p => simp [checkPriceThreshold, hp, h]

/-- Witness for C1: threshold 100.0 and price 45.0 alert. -/
theorem c1_threshold_alert_iff_witness :
    checkPriceThreshold
      { price_threshold := some 100, email_alerts := none, screenshot_on_error := some true,
        explicit_wait_timeout := some 20, implicit_wait_timeout := some 10 }
      { product_name := "Test Product", price := some 45, availability := "In Stock",
        url := "https://www.amazon.com/dp/TEST123" } = true :=
  (c1_threshold_alert_iff _ _ 100 rfl).mpr ⟨45, rfl, by norm_num⟩

example : checkPriceThreshold
    { price_threshold := some 100, email_alerts := none, screenshot_on_error := some true,
      explicit_wait_timeout := some 20, implicit_wait_timeout := some 10 }
    { product_name := "T", price := some 150, availability := "In Stock", url := "u" }
      = false := by
  simp [checkPriceThreshold]
  norm_num

example : checkPriceThreshold
    { price_threshold := some 100, email_alerts := none, screenshot_on_error := some true,
      explicit_wait_timeout := some 20, implicit_wait_timeout := some 10 }
    { product_name := "T", price := some 100, availability := "In Stock", url := "u" }
      = false := by
  simp [checkPriceThreshold]

example : checkPriceThreshold
    { price_threshold := some 100, email_alerts := none, screenshot_on_error := some true,
      explicit_wait_timeout := some 20, implicit_wait_timeout := some 10 }
    { product_name := "T", price := none, availability := "Unknown", url := "u" }
      = false := by
  simp [checkPriceThreshold]

/-- Claim C2: the code's price normalization (strip dollars and commas,
first match of `\d+\.?\d*`, parse, accept exactly when strictly between
0 and 1,000,000, never an error) coincides with the spec's description
using the pattern `<digits>(.<digits>)?` — the greedy trailing
`.`-with-no-digits the code's regex can swallow changes no parsed value. -/
theorem c2_normalizePrice_eq_spec (s : List Char) :
    normalizePrice s = normalizePriceSpec s := by
  have hm := firstNumMatch_eq_spec (pyStrip (removeCurrencyChars s))
  by_cases h : (pyStrip (removeCurrencyChars s)).isEmpty
  · have h0 : pyStrip (removeCurrencyChars s) = [] := by simpa using h
    simp [normalizePrice, normalizePriceSpec, h, h0, firstNumMatchSpec]
  · simp [normalizePrice, normalizePriceSpec, h, hm]

/-- Witness for C2 at the spec's own example text. -/
theorem c2_normalizePrice_eq_spec_witness :
    normalizePrice "$1,234.56".data = normalizePriceSpec "$1,234.56".data :=
  c2_normalizePrice_eq_spec _

/-- Claim C3 as stated is false: with a present config document that
lacks `price_threshold`, the threshold evaluation does not use 50.0 —
the loaded configuration still carries no threshold, and
`config.get("price_threshold", float('inf'))` falls back to `+∞`, so the
price 1000 (far above 50, which under a threshold of 50.0 would not
alert) alerts. -/
theorem c3_counterexample :
    (loadConfig (some
      { price_threshold := none, email_alerts := none, screenshot_on_error := some true,
        explicit_wait_timeout := some 20, implicit_wait_timeout := some 10 })).price_threshold
      = none ∧
    checkPriceThreshold
      (loadConfig (some
        { price_threshold := none, email_alerts := none, screenshot_on_error := some true,
          explicit_wait_timeout := some 20, implicit_wait_timeout := some 10 }))
      { product_name := "P", price := some 1000, availability := "Unknown", url := "u" }
      = true ∧
    checkPriceThreshold defaultConfig
      { product_name := "P", price := some 1000, availability := "Unknown", url := "u" }
      = false := by
  refine ⟨rfl, rfl, ?_⟩
  simp [checkPriceThreshold, defaultConfig]
  norm_num

/-- Claim C3 amended: only a missing config file yields the default
threshold 50.0 (via the default dictionary of `_load_config`); when a
present config document lacks the key, the evaluation falls back to
`float('inf')` and every present price alerts. -/
theorem c3_amended (doc : Config) (p : ℚ) (n a u : String)
    (h : doc.price_threshold = none) :
    (loadConfig none).price_threshold = some 50 ∧
    checkPriceThreshold (loadConfig none)
      { product_name := n, price := some p, availability := a, url := u } = decide (p < 50) ∧
    checkPriceThreshold (loadConfig (some doc))
      { product_name := n, price := some p, availability := a, url := u } = true := by
  refine ⟨rfl, ?_, ?_⟩
  · simp [checkPriceThreshold, loadConfig, defaultConfig]
  · simp [checkPriceThreshold, loadConfig, h]

/-- Witness for the amended C3 at a concrete document and price. -/
theorem c3_amended_witness :
    (loadConfig none).price_threshold = some 50 ∧
    checkPriceThreshold (loadConfig none)
      { product_name := "P", price := some 1000, availability := "Unknown", url := "u" }
      = decide ((1000 : ℚ) < 50) ∧
    checkPriceThreshold (loadConfig (some
      { price_threshold := none, email_alerts := none, screenshot_on_error := some true,
        explicit_wait_timeout := some 20, implicit_wait_timeout := some 10 }))
      { product_name := "P", price := some 1000, availability := "Unknown", url := "u" }
      = true :=
  c3_amended _ 1000 "P" "Unknown" "u" rfl

/-- Claim C4 as stated is false: here is an extraction that yields the
`MissingName` failure (no name selector resolves) under a configuration
with `screenshot_on_error` enabled, yet the diagnostic capture is not
invoked — the early `return None` at line 104 bypasses the screenshot,
which only the `except Exception` handler takes. -/
theorem c4_counterexample :
    extractAmazonProduct
      { price_threshold := some 50, email_alerts := none, screenshot_on_error := some true,
        explicit_wait_timeout := some 20, implicit_wait_timeout := some 10 }
      { nameResults := [none, none, none, none], priceResults := [], priceFraction := none,
        availResults := [], raisesUnexpected := false }
      "https://www.amazon.com/dp/X"
      = (.missingName, false) := by
  rfl

/-- Claim C4 amended: the diagnostic capture is invoked (exactly when
`screenshot_on_error` is enabled, defaulting to enabled) for the
unexpected-error failure only; the `MissingName` failure never invokes
it. -/
theorem c4_amended (cfg : Config) (doc : Doc) (url : String) :
    ((extractAmazonProduct cfg doc url).1 = .unexpectedError →
      (extractAmazonProduct cfg doc url).2 = cfg.screenshot_on_error.getD true) ∧
    ((extractAmazonProduct cfg doc url).1 = .missingName →
      (extractAmazonProduct cfg doc url).2 = false) := by
  by_cases hr : doc.raisesUnexpected
  · constructor
    · intro _
      simp [extractAmazonProduct, hr]
    · intro hcontra
      simp [extractAmazonProduct, hr] at hcontra
  · cases hn : extractName doc.nameResults with
    | none =>
      constructor
      · intro hcontra
        simp [extractAmazonProduct, hr, hn] at hcontra
      · intro _
        simp [extractAmazonProduct, hr, hn]
    | some name =>
      by_cases hname : name = ""
      · constructor
        · intro hcontra
          simp [extractAmazonProduct, hr, hn, hname] at hcontra
        · intro _
          simp [extractAmazonProduct, hr, hn, hname]
      · constructor
        · intro hcontra
          simp [extractAmazonProduct, hr, hn, hname] at hcontra
        · intro hcontra
          simp [extractAmazonProduct, hr, hn, hname] at hcontra

/-- Witness for the amended C4: an unexpected error with screenshots
enabled captures; a missing name does not. -/
theorem c4_amended_witness :
    (extractAmazonProduct
      { price_threshold := some 50, email_alerts := none, screenshot_on_error := some true,
        explicit_wait_timeout := some 20, implicit_wait_timeout := some 10 }
      { nameResults := [], priceResults := [], priceFraction := none,
        availResults := [], raisesUnexpected := true }
      "u").2
      = (Option.some true).getD true ∧
    (extractAmazonProduct
      { price_threshold := some 50, email_alerts := none, screenshot_on_error := some true,
        explicit_wait_timeout := some 20, implicit_wait_timeout := some 10 }
      { nameResults := [none, none, none, none], priceResults := [], priceFraction := none,
        availResults := [], raisesUnexpected := false }
      "u").2
      = false :=
  ⟨(c4_amended _ _ "u").1 rfl, (c4_amended _ _ "u").2 rfl⟩

/-- Claim C5 as stated is false: a run on a missing products file aborts
before any URL is visited, but the process does not exit with code 1 —
`track_products` prints the message and returns normally, so the exit
code is 0. -/
theorem c5_counterexample :
    (trackProducts defaultConfig
      { productsFileExists := false,
        visits := [{ url := "https://www.amazon.com/dp/X", ts := "t",
                     doc := { nameResults := [], priceResults := [], priceFraction := none,
                              availResults := [], raisesUnexpected := false },
                     getRaises := false }],
        driverSetupFails := false } []).exitCode = 0 ∧
    (trackProducts defaultConfig
      { productsFileExists := false,
        visits := [{ url := "https://www.amazon.com/dp/X", ts := "t",
                     doc := { nameResults := [], priceResults := [], priceFraction := none,
                              availResults := [], raisesUnexpected := false },
                     getRaises := false }],
        driverSetupFails := false } []).visitResults = [] ∧
    (trackProducts defaultConfig
      { productsFileExists := false,
        visits := [{ url := "https://www.amazon.com/dp/X", ts := "t",
                     doc := { nameResults := [], priceResults := [], priceFraction := none,
                              availResults := [], raisesUnexpected := false },
                     getRaises := false }],
        driverSetupFails := false } []).log = [] := by
  refine ⟨rfl, rfl, rfl⟩

/-- Claim C5 amended: a run on a missing products file aborts before any
URL is visited (no visit results, no log rows) after printing a clear
message, and the process terminates with exit code 0 — the normal
return; exit code 1 is reserved for errors reaching the handler around
the driver and URL loop. -/
theorem c5_amended (cfg : Config) (inp : RunInput) (log0 : CsvFile)
    (h : inp.productsFileExists = false) :
    (trackProducts cfg inp log0).exitCode = 0 ∧
    (trackProducts cfg inp log0).visitResults = [] ∧
    (trackProducts cfg inp log0).log = log0 := by
  refine ⟨?_, ?_, ?_⟩ <;> simp [trackProducts, h]

/-- Witness for the amended C5 at a concrete run. -/
theorem c5_amended_witness :
    (trackProducts defaultConfig
      { productsFileExists := false, visits := [], driverSetupFails := false } []).exitCode = 0 ∧
    (trackProducts defaultConfig
      { productsFileExists := false, visits := [], driverSetupFails := false } []).visitResults
      = [] ∧
    (trackProducts defaultConfig
      { productsFileExists := false, visits := [], driverSetupFails := false } []).log = [] :=
  c5_amended defaultConfig _ [] rfl

/-- Claim C6: appending any sequence of observation records to a freshly
initialized log yields the header row first and then one row per record
in order; the header equals
`["timestamp", "product_name", "price", "availability", "url"]`, the
price field sits in the third column, it is exactly `"N/A"` when the
price is absent, and otherwise the price rendered as a digit string, a
point, and exactly two digits. -/
theorem c6_log_roundtrip (entries : List (String × ProductData)) :
    (entries.foldl (fun acc e => saveResult acc e.1 e.2) (initializeCsv none))
      = csvHeader :: entries.map (fun e => rowOf e.1 e.2) ∧
    csvHeader = ["timestamp", "product_name", "price", "availability", "url"] ∧
    (∀ ts d, (rowOf ts d).get? 2 = some (priceField d.price)) ∧
    priceField none = "N/A" ∧
    (∀ v : ℚ, priceField (some v) = fmt2 v) ∧
    (∀ v : ℚ, ∃ (ds : List Char) (c₁ c₂ : Char),
      fmt2 v = String.mk ds ++ "." ++ String.mk [c₁, c₂] ∧ ds ≠ [] ∧
      (∀ c ∈ ds, c.isDigit) ∧ c₁.isDigit ∧ c₂.isDigit) := by
  refine ⟨?_, rfl, fun ts d => rfl, rfl, fun v => rfl, fun v => ?_⟩
  · rw [foldl_saveResult]
    rfl
  · refine ⟨natChars ((round (v * 100)).toNat / 100),
      digitChar ((round (v * 100)).toNat / 10 % 10),
      digitChar ((round (v * 100)).toNat % 10), rfl, natChars_ne_nil _,
      natChars_digits _, ?_, ?_⟩
    · exact digitChar_isDigit _ (by omega)
    · exact digitChar_isDigit _ (by omega)

/-- Witness for C6 at the test suite's sample record: one appended
record yields the header followed by its row. -/
theorem c6_log_roundtrip_witness :
    [(("2024-01-15 10:30:00" : String),
      ({ product_name := "Test Product", price := some (49.99 : ℚ),
         availability := "In Stock", url := "https://example.com/product" } : ProductData))].foldl
        (fun acc e => saveResult acc e.1 e.2) (initializeCsv none)
      = csvHeader ::
        [rowOf "2024-01-15 10:30:00"
          { product_name := "Test Product", price := some (49.99 : ℚ),
            availability := "In Stock", url := "https://example.com/product" }] :=
  (c6_log_roundtrip _).1

/-- Claim C7: the URL loop produces one visit result per input URL, in
order — no per-URL failure stops the batch — and the final log is the
initial log extended by exactly the rows of the visits whose extraction
succeeded, in input order. -/
theorem c7_batch_isolation (cfg : Config) (visits : List UrlVisit) (log0 : CsvFile) :
    (runLoop cfg visits log0).1 = visits.map (processUrl cfg) ∧
    (runLoop cfg visits log0).2
      = log0 ++ visits.filterMap (fun v => (processUrl cfg v).logRow) ∧
    (∀ v row, (processUrl cfg v).logRow = some row ↔
      ∃ d, row = rowOf v.ts d ∧ v.getRaises = false ∧ isSupported v.url = true ∧
        (extractAmazonProduct cfg v.doc v.url).1 = .success d) := by
  refine ⟨?_, ?_, ?_⟩
  · induction visits generalizing log0 with
    | nil => simp [runLoop]
    | cons v rest ih => simp [runLoop, ih]
  · induction visits generalizing log0 with
    | nil => simp [runLoop]
    | cons v rest ih =>
      cases hrow : (processUrl cfg v).logRow with
      | none => simp [runLoop, hrow, ih]
      | some row => simp [runLoop, hrow, ih]
  · intro v row
    by_cases hg : v.getRaises
    · simp [processUrl, hg]
    · by_cases hs : isSupported v.url
      · rcases hE : extractAmazonProduct cfg v.doc v.url with ⟨res, shot⟩
        cases res with
        | success d => simp [processUrl, hg, hs, hE, eq_comm]
        | missingName => simp [processUrl, hg, hs, hE]
        | unexpectedError => simp [processUrl, hg, hs, hE]
      · simp [processUrl, hg, hs]

/-- Witness for C7: a batch of three visits — a successful extraction,
a visit whose navigation raises, and an unsupported URL — still yields
one result per visit, and the log collects exactly the successful rows
in order. -/
theorem c7_batch_isolation_witness :
    (runLoop defaultConfig
      [{ url := "https://www.amazon.com/dp/A", ts := "t1",
         doc := { nameResults := [some "Product A"], priceResults := [], priceFraction := none,
                  availResults := [], raisesUnexpected := false },
         getRaises := false },
       { url := "https://www.amazon.com/dp/B", ts := "t2",
         doc := { nameResults := [some "Product B"], priceResults := [], priceFraction := none,
                  availResults := [], raisesUnexpected := false },
         getRaises := true },
       { url := "https://www.ebay.com/itm/C", ts := "t3",
         doc := { nameResults := [some "Product C"], priceResults := [], priceFraction := none,
                  availResults := [], raisesUnexpected := false },
         getRaises := false }] []).2
      = [] ++
        [{ url := "https://www.amazon.com/dp/A", ts := "t1",
           doc := { nameResults := [some "Product A"], priceResults := [], priceFraction := none,
                    availResults := [], raisesUnexpected := false },
           getRaises := false },
         { url := "https://www.amazon.com/dp/B", ts := "t2",
           doc := { nameResults := [some "Product B"], priceResults := [], priceFraction := none,
                    availResults := [], raisesUnexpected := false },
           getRaises := true },
         { url := "https://www.ebay.com/itm/C", ts := "t3",
           doc := { nameResults := [some "Product C"], priceResults := [], priceFraction := none,
                    availResults := [], raisesUnexpected := false },
           getRaises := false }].filterMap
          (fun v => (processUrl defaultConfig v).logRow) :=
  (c7_batch_isolation _ _ _).2.1

/-- Claim C8 meets a code bug: the availability text
`"currently unavailable"` should classify as Out of Stock (the elif at
line 160 names `'unavailable'` as an out-of-stock marker, and the claim
says so), but the In-Stock check at line 157 runs first and
`'available' in 'currently unavailable'` is true, so the code classifies
it In Stock.  In fact the `'unavailable'` disjunct of the elif is
unreachable: any text containing `"unavailable"` contains
`"available"`. -/
theorem c8_code_bug_eval :
    classifyAvailText "currently unavailable" = some "In Stock" ∧
    extractAvailability [some "Currently unavailable."] = "In Stock" ∧
    classifyAvailText "in stock" = some "In Stock" ∧
    extractAvailability [none, some "Out of stock."] = "Out of Stock" := by
  refine ⟨by decide, by decide, by decide, by decide⟩

/-- Dead code behind the C8 bug: every availability text containing
`"unavailable"` also contains `"available"`, so the In-Stock branch at
line 157 always captures it and the `'unavailable'` disjunct of the elif
at line 160 can never fire. -/
theorem classify_unavailable_dead_code (t : String)
    (h : containsSub "unavailable".data (pyLower (pyStrip t.data)) = true) :
    classifyAvailText t = some "In Stock" := by
  have hsub : ("available".data : List Char) <:+: "unavailable".data := by decide
  have h2 : containsSub "available".data (pyLower (pyStrip t.data)) = true := by
    simp only [containsSub, decide_eq_true_eq] at h ⊢
    exact hsub.trans h
  simp [classifyAvailText, h2]

/-- Concrete instance of the dead-code lemma. -/
theorem classify_unavailable_dead_code_inst :
    classifyAvailText "This item is unavailable" = some "In Stock" :=
  classify_unavailable_dead_code _ (by decide)

/-- Claim C9: the session treats a URL as supported exactly when the
lowercased URL contains `"amazon"` as a substring — anywhere, including
the path or query of an unrelated host — and a URL without that
substring (on a visit whose navigation did not itself raise) is skipped:
no extraction, no log row, no diagnostic capture; a URL with it is
extracted. -/
theorem c9_supported_iff_substring (cfg : Config) (v : UrlVisit)
    (h : v.getRaises = false) :
    (isSupported v.url = true ↔ ("amazon".data : List Char) <:+: pyLower v.url.data) ∧
    (isSupported v.url = false →
      (processUrl cfg v).extracted = false ∧ (processUrl cfg v).logRow = none ∧
        (processUrl cfg v).screenshot = false) ∧
    (isSupported v.url = true → (processUrl cfg v).extracted = true) := by
  refine ⟨by simp [isSupported, containsSub], ?_, ?_⟩
  · intro hs
    refine ⟨?_, ?_, ?_⟩ <;> simp [processUrl, h, hs]
  · intro hs
    rcases hE : extractAmazonProduct cfg v.doc v.url with ⟨res, shot⟩
    cases res <;> simp [processUrl, h, hs, hE]

/-- Witness for C9: a URL with "amazon" only in the path of an unrelated
host is extracted; a URL without the substring is skipped with no
extraction, no log row and no screenshot. -/
theorem c9_supported_iff_substring_witness :
    (processUrl defaultConfig
      { url := "https://shop.example.com/amazon-deals", ts := "t",
        doc := { nameResults := [some "N"], priceResults := [], priceFraction := none,
                 availResults := [], raisesUnexpected := false },
        getRaises := false }).extracted = true ∧
    ((processUrl defaultConfig
      { url := "https://www.ebay.com/itm/123", ts := "t",
        doc := { nameResults := [some "N"], priceResults := [], priceFraction := none,
                 availResults := [], raisesUnexpected := false },
        getRaises := false }).extracted = false ∧
      (processUrl defaultConfig
        { url := "https://www.ebay.com/itm/123", ts := "t",
          doc := { nameResults := [some "N"], priceResults := [], priceFraction := none,
                   availResults := [], raisesUnexpected := false },
          getRaises := false }).logRow = none ∧
      (processUrl defaultConfig
        { url := "https://www.ebay.com/itm/123", ts := "t",
          doc := { nameResults := [some "N"], priceResults := [], priceFraction := none,
                   availResults := [], raisesUnexpected := false },
          getRaises := false }).screenshot = false) :=
  ⟨(c9_supported_iff_substring defaultConfig _ rfl).2.2 (by decide),
    (c9_supported_iff_substring defaultConfig _ rfl).2.1 (by decide)⟩

/-- Claim C10: the sender password comes exclusively from the
`EMAIL_PASSWORD` environment variable — whenever a delivery is
attempted, the password used is the environment value, and when the
variable is unset or empty the alert is skipped (the credentials-missing
message is printed and nothing is sent), no matter what the
configuration document contains. -/
theorem c10_password_env_only (env : Env) (cfg : Config) :
    ((env.EMAIL_PASSWORD = none ∨ env.EMAIL_PASSWORD = some "") →
      sendEmailAlert env cfg = .skippedMissingCreds) ∧
    (∀ s r srv port pw, sendEmailAlert env cfg = .attempted s r srv port pw →
      env.EMAIL_PASSWORD = some pw ∧ pw ≠ "") := by
  constructor
  · rintro (hp | hp) <;> simp [sendEmailAlert, hp]
  · intro s r srv port pw hEq
    cases hp : env.EMAIL_PASSWORD with
    | none => simp [sendEmailAlert, hp] at hEq
    | some p =>
      by_cases hpe : p = ""
      · simp [sendEmailAlert, hp, hpe] at hEq
      · simp only [sendEmailAlert, hp, Option.getD_some] at hEq
        split at hEq
        · exact absurd hEq (by simp)
        · rw [DispatchResult.attempted.injEq] at hEq
          exact ⟨by rw [hEq.2.2.2.2], by rw [← hEq.2.2.2.2]; exact hpe⟩

/-- Witness for C10: even with sender and recipient fully present in the
configuration, an unset `EMAIL_PASSWORD` environment variable skips the
alert. -/
theorem c10_password_env_only_witness :
    sendEmailAlert
      { EMAIL_SENDER := none, EMAIL_PASSWORD := none, EMAIL_RECIPIENT := none }
      { price_threshold := some 50,
        email_alerts := some
          { enabled := some true, sender_email := some "alerts@example.com",
            recipient_email := some "me@example.com", smtp_server := some "smtp.example.com",
            smtp_port := some 587 },
        screenshot_on_error := some true, explicit_wait_timeout := some 20,
        implicit_wait_timeout := some 10 }
      = .skippedMissingCreds :=
  (c10_password_env_only _ _).1 (Or.inl rfl)

end DealHound
